import Mathlib

/-!
Shallow embedding of the Adelaide weather auditor pipeline.

Source files:
* `weather_fetcher.py` — ingestion: three forecast fetchers (BOM forecast page,
  Open-Meteo API, Weatherzone page), the whole-day idempotency guard, the
  actuals backfill from the BOM observation JSON feed, and the save step.
* `streamlit_app.py` — grading: the gradable-row filter, the error columns,
  the rain-success column and the perfect-day filter.

Numeric values are modelled as rationals (`ℚ`); optional CSV cells as
`Option ℚ`; dates, stations and sources as strings.  Network calls are
modelled by passing the call results in explicitly (an environment record),
so each fetcher/parse is a pure function of the fetched payload.
-/

/- ------------------------------------------------------------------ -/
/- String and regex-scan utilities used by the scraping code.          -/
/- ------------------------------------------------------------------ -/

/-- ASCII lowercasing of one character, as Python `str.lower` acts on the
ASCII labels that appear on the scraped pages. -/
def lowerChar (c : Char) : Char :=
  if 'A' ≤ c ∧ c ≤ 'Z' then Char.ofNat (c.toNat + 32) else c

/-- Python `s.lower()` (ASCII). -/
def lowerStr (s : String) : String := String.mk (s.toList.map lowerChar)

/-- Does `pat` occur as a prefix of the second list? -/
def headMatch : List Char → List Char → Bool
  | [], _ => true
  | _ :: _, [] => false
  | p :: ps, c :: cs => p == c && headMatch ps cs

/-- Python `pat in s` (substring occurrence) on character lists. -/
def hasSubList (pat : List Char) : List Char → Bool
  | [] => pat.isEmpty
  | c :: cs => headMatch pat (c :: cs) || hasSubList pat cs

/-- Python `pat in s` for strings (used for the `'possible rainfall' in label`
style tests of `fetch_bom_forecast`). -/
def strContainsSub (s pat : String) : Bool := hasSubList pat.toList s.toList

/-- Numeric value of a digit run. -/
def natOfDigits (ds : List Char) : Nat :=
  ds.foldl (fun n c => 10 * n + (c.toNat - 48)) 0

/-- First match of the regex `(-?\d+)` (`re.search`), as used on the
`Min:`/`Max:` values of the BOM forecast page. -/
def findIntAux : List Char → Option Int
  | [] => none
  | c :: cs =>
    if c.isDigit then
      some ((natOfDigits ((c :: cs).takeWhile Char.isDigit) : Nat) : Int)
    else if c = '-' then
      match cs with
      | d :: _ =>
        if d.isDigit then some (-((natOfDigits (cs.takeWhile Char.isDigit) : Nat) : Int))
        else findIntAux cs
      | [] => none
    else findIntAux cs

/-- `re.search(r'(-?\d+)', s)` returning the matched integer. -/
def findInt? (s : String) : Option Int := findIntAux s.toList

/-- First match of the regex `(\d+)` (`re.search`), used for the rain
probability value of the BOM forecast page. -/
def findNatAux : List Char → Option Nat
  | [] => none
  | c :: cs =>
    if c.isDigit then some (natOfDigits ((c :: cs).takeWhile Char.isDigit))
    else findNatAux cs

/-- `re.search(r'(\d+)', s)` returning the matched number. -/
def findNat? (s : String) : Option Nat := findNatAux s.toList

/-- Value of an integer part plus a fractional digit run, i.e. the float value
of a decimal literal `ip.fp` (an empty fractional part contributes nothing,
split out so that integer-valued literals stay division-free). -/
def decVal (ip fp : List Char) : ℚ :=
  match fp with
  | [] => (natOfDigits ip : ℚ)
  | _ => (natOfDigits ip : ℚ) + (natOfDigits fp : ℚ) / (10 : ℚ) ^ fp.length

/-- All matches of the regex `(\d+\.?\d*)` (`re.findall`), scanning left to
right and continuing after each match.  The fuel argument bounds the scan;
each step consumes at least one character, so the input length is always
enough fuel. -/
def findDecimalsAux : Nat → List Char → List ℚ
  | 0, _ => []
  | _, [] => []
  | fuel + 1, c :: cs =>
    if c.isDigit then
      let ds := (c :: cs).takeWhile Char.isDigit
      match (c :: cs).dropWhile Char.isDigit with
      | '.' :: r2 =>
        decVal ds (r2.takeWhile Char.isDigit) ::
          findDecimalsAux fuel (r2.dropWhile Char.isDigit)
      | r1 => decVal ds [] :: findDecimalsAux fuel r1
    else findDecimalsAux fuel cs

/-- `re.findall(r'(\d+\.?\d*)', s)` as floats. -/
def findDecimals (s : String) : List ℚ := findDecimalsAux s.toList.length s.toList

/-- First match of the regex `(-?\d+\.?\d*)` (`re.search`), as used on the
Weatherzone class-matched elements. -/
def findSignedDecAux : List Char → Option ℚ
  | [] => none
  | c :: cs =>
    if c.isDigit then
      let ds := (c :: cs).takeWhile Char.isDigit
      match (c :: cs).dropWhile Char.isDigit with
      | '.' :: r2 => some (decVal ds (r2.takeWhile Char.isDigit))
      | _ => some (decVal ds [])
    else if c = '-' then
      match cs with
      | d :: _ =>
        if d.isDigit then
          (findSignedDecAux cs).map (fun q => -q)
        else findSignedDecAux cs
      | [] => none
    else findSignedDecAux cs

/-- `re.search(r'(-?\d+\.?\d*)', s)` returning the matched value. -/
def findSignedDec? (s : String) : Option ℚ := findSignedDecAux s.toList

/-- Attempt to match `\d+\s*°` at the start of `body`, returning the integer
value and the remainder after the `°`. -/
def degTail (body : List Char) : Option (Nat × List Char) :=
  if (body.takeWhile Char.isDigit).isEmpty then none
  else
    match (body.dropWhile Char.isDigit).dropWhile Char.isWhitespace with
    | '°' :: rest => some (natOfDigits (body.takeWhile Char.isDigit), rest)
    | _ => none

/-- All matches of the regex `(-?\d+)\s*°` (`re.findall`) over the page text,
used by Weatherzone strategy 2.  Fuel bounds the scan as above. -/
def findDegTokensAux : Nat → List Char → List Int
  | 0, _ => []
  | _, [] => []
  | fuel + 1, c :: cs =>
    if c = '-' then
      match degTail cs with
      | some (n, rest) => (-(n : Int)) :: findDegTokensAux fuel rest
      | none => findDegTokensAux fuel cs
    else
      match degTail (c :: cs) with
      | some (n, rest) => ((n : Nat) : Int) :: findDegTokensAux fuel rest
      | none => findDegTokensAux fuel cs

/-- `re.findall(r'(-?\d+)\s*°', s)` as integers. -/
def findDegTokens (s : String) : List Int := findDegTokensAux s.toList.length s.toList

/-- First match of `(\d+)\s*%` (`re.search`), the Weatherzone rain
probability extraction; also decides the `string=re.compile(r'\d+\s*%')`
node search (same pattern). -/
def probValAux : List Char → Option Nat
  | [] => none
  | c :: cs =>
    if c.isDigit then
      match ((c :: cs).dropWhile Char.isDigit).dropWhile Char.isWhitespace with
      | '%' :: _ => some (natOfDigits ((c :: cs).takeWhile Char.isDigit))
      | _ => probValAux cs
    else probValAux cs

/-- `re.search(r'(\d+)\s*%', s)` returning the matched number. -/
def probVal? (s : String) : Option Nat := probValAux s.toList

/-- Does `\d+[\-–]\d+\s*mm` match somewhere in the list
(`re.compile(r'\d+[\-–]\d+\s*mm')` used as a BeautifulSoup string filter)? -/
def mmRangeHitAux : List Char → Bool
  | [] => false
  | c :: cs =>
    (if c.isDigit then
      match (c :: cs).dropWhile Char.isDigit with
      | d :: r1 =>
        ((d == '-' || d == '–') && !(r1.takeWhile Char.isDigit).isEmpty &&
          (match (r1.dropWhile Char.isDigit).dropWhile Char.isWhitespace with
           | 'm' :: 'm' :: _ => true
           | _ => false))
      | [] => false
    else false) || mmRangeHitAux cs

/-- `re.search(r'\d+[\-–]\d+\s*mm', s)` succeeds. -/
def mmRangeHit (s : String) : Bool := mmRangeHitAux s.toList

/-- First match of `(\d+\.?\d*)\s*mm` (`re.search`), the Weatherzone
single-value rainfall extraction; also decides the corresponding
`string=` node search (same pattern). -/
def mmSingleAux : List Char → Option ℚ
  | [] => none
  | c :: cs =>
    if c.isDigit then
      let ds := (c :: cs).takeWhile Char.isDigit
      let rest :=
        match (c :: cs).dropWhile Char.isDigit with
        | '.' :: r2 => (r2.takeWhile Char.isDigit, r2.dropWhile Char.isDigit)
        | r1 => ([], r1)
      match rest.2.dropWhile Char.isWhitespace with
      | 'm' :: 'm' :: _ => some (decVal ds rest.1)
      | _ => mmSingleAux cs
    else mmSingleAux cs

/-- `re.search(r'(\d+\.?\d*)\s*mm', s)` returning the matched value. -/
def mmSingle? (s : String) : Option ℚ := mmSingleAux s.toList

/-- Strip leading and trailing whitespace. -/
def stripWs (l : List Char) : List Char :=
  ((l.dropWhile Char.isWhitespace).reverse.dropWhile Char.isWhitespace).reverse

/-- Python `float(s)` on plain decimal literals (optional sign, digits with an
optional fractional part, surrounding whitespace allowed): `none` models the
`ValueError` on any other shape.  Exponent/inf/nan forms never occur in the
`rain_trace` feed values this is applied to and are not modelled. -/
def pyFloat? (s : String) : Option ℚ :=
  let l := stripWs s.toList
  let sgn : Bool × List Char :=
    match l with
    | '-' :: r => (true, r)
    | '+' :: r => (false, r)
    | _ => (false, l)
  let ip := sgn.2.takeWhile Char.isDigit
  let val? : Option ℚ :=
    match sgn.2.dropWhile Char.isDigit with
    | [] => if ip.isEmpty then none else some (decVal ip [])
    | '.' :: r2 =>
      if (r2.dropWhile Char.isDigit).isEmpty ∧ ¬(ip.isEmpty ∧ (r2.takeWhile Char.isDigit).isEmpty)
      then some (decVal ip (r2.takeWhile Char.isDigit)) else none
    | _ => none
  val?.map (fun v => if sgn.1 then -v else v)

/-- `yesterday_str.replace('-', '')`: the compact `YYYYMMDD` form of a
`YYYY-MM-DD` date string (removing every dash). -/
def compactDate (s : String) : String := String.mk (s.toList.filter (fun c => c ≠ '-'))

/- ------------------------------------------------------------------ -/
/- Data model: the CSV ledger (`weather_history.csv`).                 -/
/- ------------------------------------------------------------------ -/

/-- One ledger row, with the fixed column set of `CSV_COLUMNS`.  Empty CSV
cells are `none`. -/
structure LedgerRow where
  Date : String
  Station : String
  Source : String
  Forecast_Min_Temp : Option ℚ
  Forecast_Max_Temp : Option ℚ
  Forecast_Rain_Prob : Option ℚ
  Forecast_Rain_Min_mm : Option ℚ
  Forecast_Rain_Max_mm : Option ℚ
  Actual_Min_Temp : Option ℚ
  Actual_Max_Temp : Option ℚ
  Actual_Rain_mm : Option ℚ
deriving DecidableEq, Repr

/-- The five forecast fields a fetcher returns (the dict merged into a new
record by the collection loop). -/
structure ForecastFields where
  minT : Option ℚ
  maxT : Option ℚ
  prob : Option ℚ
  rainMin : Option ℚ
  rainMax : Option ℚ
deriving DecidableEq, Repr

/-- The actual-observation triple returned by `fetch_bom_actuals`. -/
structure ActualObs where
  minT : ℚ
  maxT : ℚ
  rain : ℚ
deriving DecidableEq, Repr

/-- One station configuration entry of the `STATIONS` dict. -/
structure Station where
  name : String
  lat : ℚ
  lon : ℚ
  bom_id : String
  prod_id : String
  bom_place : String
deriving DecidableEq, Repr

/-- The first `STATIONS` entry. -/
def stWT : Station :=
  { name := "West Terrace", lat := -(349250/10000 : ℚ), lon := (1385870/10000 : ℚ),
    bom_id := "94648", prod_id := "IDS60901", bom_place := "adelaide" }

/-- The `STATIONS` configuration: 4 stations across the Adelaide metro area. -/
def STATIONS : List Station :=
  [ stWT,
    { name := "Adelaide Airport", lat := -(349524/10000 : ℚ), lon := (1385196/10000 : ℚ),
      bom_id := "94146", prod_id := "IDS60901", bom_place := "adelaide-airport" },
    { name := "Mount Lofty", lat := -(349800/10000 : ℚ), lon := (1387083/10000 : ℚ),
      bom_id := "95678", prod_id := "IDS60901", bom_place := "mount-lofty" },
    { name := "Noarlunga", lat := -(351667/10000 : ℚ), lon := (1384833/10000 : ℚ),
      bom_id := "94808", prod_id := "IDS60901", bom_place := "noarlunga-centre" } ]

/-- A new forecast record appended by the collection loop: today's date, the
station and source names, the fetched forecast fields, and (as in the save
step, which fills the missing CSV columns with `pd.NA`) absent actuals. -/
def mkRow (date station source : String) (f : ForecastFields) : LedgerRow :=
  { Date := date, Station := station, Source := source,
    Forecast_Min_Temp := f.minT, Forecast_Max_Temp := f.maxT,
    Forecast_Rain_Prob := f.prob,
    Forecast_Rain_Min_mm := f.rainMin, Forecast_Rain_Max_mm := f.rainMax,
    Actual_Min_Temp := none, Actual_Max_Temp := none, Actual_Rain_mm := none }

/-- The forecast-only view of a row: everything except the three
actual-observation columns. -/
structure ForecastView where
  Date : String
  Station : String
  Source : String
  fmin : Option ℚ
  fmax : Option ℚ
  prob : Option ℚ
  rmin : Option ℚ
  rmax : Option ℚ
deriving DecidableEq, Repr

/-- Project a ledger row to its forecast-only view. -/
def forecastProj (r : LedgerRow) : ForecastView :=
  { Date := r.Date, Station := r.Station, Source := r.Source,
    fmin := r.Forecast_Min_Temp, fmax := r.Forecast_Max_Temp,
    prob := r.Forecast_Rain_Prob,
    rmin := r.Forecast_Rain_Min_mm, rmax := r.Forecast_Rain_Max_mm }

/- ------------------------------------------------------------------ -/
/- Ingestion orchestrator (`weather_fetcher.py`).                      -/
/- ------------------------------------------------------------------ -/

/-- The per-run network environment: the result each adapter call would
return, keyed exactly by the arguments the script passes
(`fetch_bom_forecast(bom_place)`, `fetch_open_meteo(lat, lon)`,
`scrape_weatherzone()` — no argument — and
`fetch_bom_actuals(name, bom_id, prod_id)` whose URL uses the two ids). -/
structure FetchEnv where
  bom : String → Option ForecastFields
  openMeteo : ℚ → ℚ → Option ForecastFields
  weatherzone : Option ForecastFields
  actuals : String → String → Option ActualObs

/-- `already_ran_today = today_str in df_history['Date'].values`. -/
def already_ran_today (L : List LedgerRow) (today : String) : Bool :=
  L.any (fun r => decide (r.Date = today))

/-- The new records one iteration of the collection loop appends for one
station: BOM, then Open-Meteo, then Weatherzone, each only on success. -/
def stationRecords (env : FetchEnv) (today : String) (s : Station) : List LedgerRow :=
  (match env.bom s.bom_place with
   | some f => [mkRow today s.name "BOM" f]
   | none => []) ++
  (match env.openMeteo s.lat s.lon with
   | some f => [mkRow today s.name "Open-Meteo" f]
   | none => []) ++
  (match env.weatherzone with
   | some f => [mkRow today s.name "Weatherzone" f]
   | none => [])

/-- `new_records` after the collection loop over all stations. -/
def collectForecasts (env : FetchEnv) (today : String) : List Station → List LedgerRow
  | [] => []
  | s :: ss => stationRecords env today s ++ collectForecasts env today ss

/-- The three `df_history.loc[mask, ...] = actuals[...]` assignments: set the
actual triple on a row. -/
def setActuals (a : ActualObs) (r : LedgerRow) : LedgerRow :=
  { r with Actual_Min_Temp := some a.minT, Actual_Max_Temp := some a.maxT,
           Actual_Rain_mm := some a.rain }

/-- One iteration of the actuals loop for station `s`: if the fetch
succeeded and `mask = (Date == yesterday) & (Station == s.name)` matches any
row, set the actual triple on every masked row. -/
def updateStationActuals (yesterday : String) (s : Station) (res : Option ActualObs)
    (L : List LedgerRow) : List LedgerRow :=
  match res with
  | none => L
  | some a =>
    if L.any (fun r => decide (r.Date = yesterday ∧ r.Station = s.name)) then
      L.map (fun r => if r.Date = yesterday ∧ r.Station = s.name then setActuals a r else r)
    else L

/-- The whole actuals loop over a station list. -/
def applyActuals (env : FetchEnv) (yesterday : String) (ss : List Station)
    (L : List LedgerRow) : List LedgerRow :=
  ss.foldl (fun acc s => updateStationActuals yesterday s (env.actuals s.bom_id s.prod_id) acc) L

/-- The effect of the whole actuals loop on a single row. -/
def rowUpd (yesterday : String) (s : Station) (res : Option ActualObs)
    (r : LedgerRow) : LedgerRow :=
  match res with
  | none => r
  | some a => if r.Date = yesterday ∧ r.Station = s.name then setActuals a r else r

/-- Chained per-row actuals updates over a station list. -/
def rowChain (env : FetchEnv) (yesterday : String) (ss : List Station)
    (r : LedgerRow) : LedgerRow :=
  ss.foldl (fun r s => rowUpd yesterday s (env.actuals s.bom_id s.prod_id) r) r

/-- One invocation of `weather_fetcher.py` on ledger state `L`: collect
today's forecasts unless the whole-day guard fires, backfill yesterday's
actuals on the loaded history, and save `concat([df_history, df_new])`. -/
def runPipeline (env : FetchEnv) (today yesterday : String)
    (L : List LedgerRow) : List LedgerRow :=
  applyActuals env yesterday STATIONS L ++
    (if already_ran_today L today then [] else collectForecasts env today STATIONS)

/- ------------------------------------------------------------------ -/
/- Grading engine (`streamlit_app.py`).                                -/
/- ------------------------------------------------------------------ -/

/-- The `df_eval` row filter: `dropna(subset=['Actual_Min_Temp',
'Actual_Max_Temp'])` then `dropna(subset=['Forecast_Max_Temp'])`.  Note that
`Actual_Rain_mm` is not part of the filter. -/
def gradable (r : LedgerRow) : Bool :=
  r.Actual_Min_Temp.isSome && r.Actual_Max_Temp.isSome && r.Forecast_Max_Temp.isSome

/-- `df_eval`: the rows the grading engine grades. -/
def dfEval (L : List LedgerRow) : List LedgerRow := L.filter gradable

/-- `Max_Temp_Error = abs(Forecast_Max_Temp - Actual_Max_Temp)`; `none` when
either side is absent (NaN propagation). -/
def maxTempError (r : LedgerRow) : Option ℚ :=
  match r.Forecast_Max_Temp, r.Actual_Max_Temp with
  | some f, some a => some |f - a|
  | _, _ => none

/-- `Min_Temp_Error = abs(Forecast_Min_Temp - Actual_Min_Temp)`; `none` when
either side is absent (NaN propagation). -/
def minTempError (r : LedgerRow) : Option ℚ :=
  match r.Forecast_Min_Temp, r.Actual_Min_Temp with
  | some f, some a => some |f - a|
  | _, _ => none

/-- `Forecast_Rain_Mid = (Forecast_Rain_Min_mm.fillna(0) +
Forecast_Rain_Max_mm.fillna(0)) / 2`. -/
def forecastRainMid (r : LedgerRow) : ℚ :=
  (r.Forecast_Rain_Min_mm.getD 0 + r.Forecast_Rain_Max_mm.getD 0) / 2

/-- `Rain_Error = abs(Forecast_Rain_Mid - Actual_Rain_mm.fillna(0))`. -/
def rainError (r : LedgerRow) : ℚ :=
  |forecastRainMid r - r.Actual_Rain_mm.getD 0|

/-- `Rain_Success = (Actual_Rain_mm >= Forecast_Rain_Min_mm) &
(Actual_Rain_mm <= Forecast_Rain_Max_mm)`; pandas comparisons with a missing
value are false. -/
def rainSuccess (r : LedgerRow) : Bool :=
  match r.Actual_Rain_mm, r.Forecast_Rain_Min_mm, r.Forecast_Rain_Max_mm with
  | some a, some lo, some hi => decide (lo ≤ a ∧ a ≤ hi)
  | _, _, _ => false

/-- The perfect-day test of the sidebar filter:
`(Max_Temp_Error <= 1.0) & Rain_Success` (an absent error compares false). -/
def isPerfectDay (r : LedgerRow) : Bool :=
  (match maxTempError r with
   | some e => decide (e ≤ 1)
   | none => false) && rainSuccess r

/-- `df_display` under `show_perfect_only`. -/
def perfectOnlyFilter (L : List LedgerRow) : List LedgerRow := L.filter isPerfectDay

/- ------------------------------------------------------------------ -/
/- Open-Meteo adapter (`fetch_open_meteo`): JSON payloads and the      -/
/- Python dynamic-typing semantics of the parse body.                  -/
/- ------------------------------------------------------------------ -/

/-- JSON values as `res.json()` returns them. -/
inductive JVal where
  | null
  | jbool (b : Bool)
  | jnum (q : ℚ)
  | jstr (s : String)
  | jarr (xs : List JVal)
  | jobj (fs : List (String × JVal))
deriving Repr

/-- The Python exceptions the parse bodies can raise. -/
inductive PyExn where
  | typeError
  | attributeError
  | keyError
  | indexError
  | valueError
deriving DecidableEq, Repr

/-- `v is None`. -/
def JVal.isNull : JVal → Bool
  | .null => true
  | _ => false

/-- Python `==` between the string `key` and a JSON value (strings compare by
content, any other type compares unequal). -/
def jeqStr (key : String) : JVal → Bool
  | .jstr s => s == key
  | _ => false

/-- Python `key not in v`: key test on a dict, membership on a list,
substring on a string, `TypeError` otherwise. -/
def pyNotInStr (key : String) : JVal → Except PyExn Bool
  | .jobj fs => .ok (!(fs.any (fun kv => kv.1 == key)))
  | .jarr xs => .ok (!(xs.any (jeqStr key)))
  | .jstr s => .ok (!(strContainsSub s key))
  | _ => .error .typeError

/-- Python `v[key]` with a string key: dict lookup (`KeyError` when absent),
`TypeError` on any other type. -/
def pySubscriptStr (v : JVal) (key : String) : Except PyExn JVal :=
  match v with
  | .jobj fs =>
    match fs.find? (fun kv => kv.1 == key) with
    | some kv => .ok kv.2
    | none => .error .keyError
  | _ => .error .typeError

/-- Python `v.get(key, dflt)`: only dicts have `.get` (`AttributeError`
otherwise). -/
def pyDictGet (v : JVal) (key : String) (dflt : JVal) : Except PyExn JVal :=
  match v with
  | .jobj fs => .ok (((fs.find? (fun kv => kv.1 == key)).map Prod.snd).getD dflt)
  | _ => .error .attributeError

/-- Python `v[0]`: list head (`IndexError` when empty), first character of a
string, `TypeError` on any other type. -/
def pyIndex0 : JVal → Except PyExn JVal
  | .jarr [] => .error .indexError
  | .jarr (x :: _) => .ok x
  | .jstr s => if s.isEmpty then .error .indexError else .ok (.jstr (String.mk (s.toList.take 1)))
  | _ => .error .typeError

/-- The raw forecast dict `fetch_open_meteo` builds (values are whatever the
JSON payload held). -/
structure OMRec where
  minT : JVal
  maxT : JVal
  prob : JVal
  rainMin : JVal
  rainMax : JVal
deriving Repr

/-- An HTTP result for a JSON endpoint: transport failure (including
`raise_for_status`), or a body; `none` means `res.json()` raises
`ValueError`. -/
inductive HttpJson where
  | transportErr
  | body (j : Option JVal)

/-- The `try` body of `fetch_open_meteo` after `res.json()`: returns the
record, `none` for the explicit no-data returns, or raises. -/
def openMeteoBody : Option JVal → Except PyExn (Option OMRec)
  | none => .error .valueError
  | some data => do
    let nin ← pyNotInStr "daily" data
    if nin then return none
    let daily ← pySubscriptStr data "daily"
    let maxL ← pyDictGet daily "temperature_2m_max" (.jarr [.null])
    let max_temp ← pyIndex0 maxL
    let minL ← pyDictGet daily "temperature_2m_min" (.jarr [.null])
    let min_temp ← pyIndex0 minL
    let rainL ← pyDictGet daily "precipitation_sum" (.jarr [.null])
    let rain_sum ← pyIndex0 rainL
    let probL ← pyDictGet daily "precipitation_probability_max" (.jarr [.null])
    let rain_prob ← pyIndex0 probL
    if max_temp.isNull || min_temp.isNull then return none
    return some { minT := min_temp, maxT := max_temp, prob := rain_prob,
                  rainMin := if rain_sum.isNull then .jnum 0 else rain_sum,
                  rainMax := if rain_sum.isNull then .jnum 0 else rain_sum }

/-- The exception classes `fetch_open_meteo` catches in its parse handler:
`except (KeyError, IndexError, ValueError)`. -/
def caughtOM : PyExn → Bool
  | .keyError => true
  | .indexError => true
  | .valueError => true
  | _ => false

/-- `fetch_open_meteo`: transport failures and the caught parse exceptions
become `None`; any other exception propagates out of the call. -/
def fetch_open_meteo : HttpJson → Except PyExn (Option OMRec)
  | .transportErr => .ok none
  | .body j =>
    match openMeteoBody j with
    | .ok v => .ok v
    | .error e => if caughtOM e then .ok none else .error e

/- ------------------------------------------------------------------ -/
/- BOM published-forecast adapter (`fetch_bom_forecast`).              -/
/- ------------------------------------------------------------------ -/

/-- A fetched HTML forecast page, abstracted to its `<dt>`/`<dd>` label-value
pairs in document order; the second component is `none` when the `<dt>` has
no following `<dd>` sibling. -/
inductive HtmlFetch where
  | transportErr
  | page (pairs : List (String × Option String))

/-- The mutable parse state of the `fetch_bom_forecast` loop.  The rain range
starts at `0.0`/`0.0` (not `None`), the other fields start absent. -/
structure BomSt where
  minT : Option ℚ
  maxT : Option ℚ
  rainMin : ℚ
  rainMax : ℚ
  prob : Option ℚ
deriving DecidableEq, Repr

/-- Initial parse state of `fetch_bom_forecast`. -/
def bomInit : BomSt := { minT := none, maxT := none, rainMin := 0, rainMax := 0, prob := none }

/-- One `<dt>`/`<dd>` pair of the `fetch_bom_forecast` loop body (the
`elif` chain on the lowercased label). -/
def bomStep (st : BomSt) (label value : String) : BomSt :=
  let l := lowerStr label
  if l = "min" ∧ st.minT = none then
    match findInt? value with
    | some n => { st with minT := some (n : ℚ) }
    | none => st
  else if l = "max" ∧ st.maxT = none then
    match findInt? value with
    | some n => { st with maxT := some (n : ℚ) }
    | none => st
  else if strContainsSub l "possible rainfall" = true ∧ st.rainMin = 0 ∧ st.rainMax = 0 then
    match findDecimals value with
    | a :: b :: _ => { st with rainMin := a, rainMax := b }
    | [a] => { st with rainMin := a, rainMax := a }
    | [] => st
  else if strContainsSub l "chance of any rain" = true ∧ st.prob = none then
    match findNat? value with
    | some n => { st with prob := some (n : ℚ) }
    | none => st
  else st

/-- The `fetch_bom_forecast` loop over the pairs: a pair without a `<dd>` is
skipped (`continue`), and the loop breaks once min, max and probability are
all set. -/
def bomScan (st : BomSt) : List (String × Option String) → BomSt
  | [] => st
  | (_, none) :: rest => bomScan st rest
  | (label, some value) :: rest =>
    let st' := bomStep st label value
    if st'.minT.isSome ∧ st'.maxT.isSome ∧ st'.prob.isSome then st'
    else bomScan st' rest

/-- The record `fetch_bom_forecast` returns on success: min and probability
may be absent; max and the rain range are always present values. -/
structure BomRec where
  minT : Option ℚ
  maxT : ℚ
  prob : Option ℚ
  rainMin : ℚ
  rainMax : ℚ
deriving DecidableEq, Repr

/-- `fetch_bom_forecast`: any transport or parse exception returns `None`
(the handlers catch `RequestException` and `Exception`); a scan that found no
max temperature returns `None`; otherwise the record. -/
def fetch_bom_forecast : HtmlFetch → Option BomRec
  | .transportErr => none
  | .page pairs =>
    let st := bomScan bomInit pairs
    match st.maxT with
    | none => none
    | some mx => some { minT := st.minT, maxT := mx, prob := st.prob,
                        rainMin := st.rainMin, rainMax := st.rainMax }

/-- The five forecast fields of a new ledger row built from a BOM record
(the `**bom_data` merge): the rain range is always a present value. -/
def bomFields (r : BomRec) : ForecastFields :=
  { minT := r.minT, maxT := some r.maxT, prob := r.prob,
    rainMin := some r.rainMin, rainMax := some r.rainMax }

/- ------------------------------------------------------------------ -/
/- Weatherzone adapter (`scrape_weatherzone`).                         -/
/- ------------------------------------------------------------------ -/

/-- A fetched Weatherzone page, abstracted to what the parse inspects:
elements as (class attribute, text) pairs in document order, the text nodes
in document order, and the full page text. -/
structure WzPage where
  classEls : List (String × String)
  strNodes : List String
  pageText : String

/-- A Weatherzone fetch result. -/
inductive WzFetch where
  | transportErr
  | page (p : WzPage)

/-- Python `max` over a non-empty int list (`none` only for the empty list). -/
def iListMax : List Int → Option Int
  | [] => none
  | x :: xs =>
    match iListMax xs with
    | none => some x
    | some m => some (max x m)

/-- Python `min` over a non-empty int list. -/
def iListMin : List Int → Option Int
  | [] => none
  | x :: xs =>
    match iListMin xs with
    | none => some x
    | some m => some (min x m)

/-- Strategy 1 then strategy 2 of `scrape_weatherzone`, producing
`(min_temp, max_temp)`: first the class-matched elements, then — only when
the max is still unset — the degree-symbol scan over the page text, which
overwrites both temperatures when it finds at least two tokens. -/
def wzTemps (p : WzPage) : Option ℚ × Option ℚ :=
  let max1 := (p.classEls.find? (fun e => strContainsSub (lowerStr e.1) "max")).bind
    (fun e => findSignedDec? e.2)
  let min1 := (p.classEls.find? (fun e => strContainsSub (lowerStr e.1) "min")).bind
    (fun e => findSignedDec? e.2)
  match max1 with
  | some m => (min1, some m)
  | none =>
    let toks := findDegTokens p.pageText
    if 2 ≤ toks.length then
      ((iListMin (toks.take 4)).map (fun n => (n : ℚ)),
       (iListMax (toks.take 4)).map (fun n => (n : ℚ)))
    else (min1, none)

/-- The Weatherzone rain-probability extraction: the first text node matching
`\d+\s*%`, then the number before the `%`. -/
def wzProb (p : WzPage) : Option ℚ :=
  match p.strNodes.find? (fun s => (probVal? s).isSome) with
  | some s => (probVal? s).map (fun n => (n : ℚ))
  | none => none

/-- The Weatherzone rainfall extraction: a range node `\d+[\-–]\d+\s*mm`
(taking the first two decimals found anywhere in that node), else a
single-value node `(\d+\.?\d*)\s*mm`, else the `0.0`/`0.0` defaults. -/
def wzRain (p : WzPage) : ℚ × ℚ :=
  match p.strNodes.find? mmRangeHit with
  | some s =>
    match findDecimals s with
    | a :: b :: _ => (a, b)
    | _ => (0, 0)
  | none =>
    match p.strNodes.find? (fun s => (mmSingle? s).isSome) with
    | some s =>
      match mmSingle? s with
      | some v => (v, v)
      | none => (0, 0)
    | none => (0, 0)

/-- The record `scrape_weatherzone` returns on success. -/
structure WzRec where
  minT : Option ℚ
  maxT : ℚ
  prob : Option ℚ
  rainMin : ℚ
  rainMax : ℚ
deriving DecidableEq, Repr

/-- `scrape_weatherzone`: no station parameter — the function always fetches
the one fixed Adelaide page.  Transport and parse exceptions return `None`;
a page on which neither strategy finds a max temperature returns `None`. -/
def scrape_weatherzone : WzFetch → Option WzRec
  | .transportErr => none
  | .page p =>
    match (wzTemps p).2 with
    | none => none
    | some mx => some { minT := (wzTemps p).1, maxT := mx, prob := wzProb p,
                        rainMin := (wzRain p).1, rainMax := (wzRain p).2 }

/-- The five forecast fields of a new ledger row built from a Weatherzone
record: the rain range is always a present value. -/
def wzFields (r : WzRec) : ForecastFields :=
  { minT := r.minT, maxT := some r.maxT, prob := r.prob,
    rainMin := some r.rainMin, rainMax := some r.rainMax }

/- ------------------------------------------------------------------ -/
/- BOM actuals resolver (`fetch_bom_actuals`).                         -/
/- ------------------------------------------------------------------ -/

/-- One timestamped sample of the BOM observation feed, restricted to the
fields the resolver reads.  `rain_trace := none` covers both an absent key
(whose `.get` default `'0'` parses to `0.0`) and a null value (falsy, giving
`0.0`) — the two cases produce the same result. -/
structure Obs where
  local_date_time_full : Option String
  air_temp : Option ℚ
  rain_trace : Option String
deriving DecidableEq, Repr

/-- A BOM observation-feed fetch result: `fail` covers `RequestException`,
a non-200 status, an unreadable JSON body and a missing
`observations`/`data` key (each returns `None`); otherwise the sample list,
newest first. -/
inductive ActualsFetch where
  | fail
  | payload (data : List Obs)

/-- The filter of the yesterday loop: a truthy `local_date_time_full` whose
first 8 characters equal yesterday's compact date, and a present
temperature. -/
def obsYesterday (yesterday : String) (o : Obs) : Bool :=
  match o.local_date_time_full with
  | some s =>
    !s.isEmpty && (String.mk (s.toList.take 8) == compactDate yesterday) && o.air_temp.isSome
  | none => false

/-- `yesterday_obs` after the date filter. -/
def yesterdayObs (yesterday : String) (data : List Obs) : List Obs :=
  data.filter (obsYesterday yesterday)

/-- The selected observation window: yesterday's samples, falling back to the
first 48 entries with a present temperature when the date filter is empty. -/
def selectedObs (yesterday : String) (data : List Obs) : List Obs :=
  let ys := yesterdayObs yesterday data
  if ys.isEmpty then (data.take 48).filter (fun o => o.air_temp.isSome) else ys

/-- The rainfall read from one sample: absent or falsy or `'-'` gives `0.0`,
otherwise `float(rain)` with `ValueError` giving `0.0`. -/
def rainOf (o : Obs) : ℚ :=
  match o.rain_trace with
  | none => 0
  | some s => if s = "" ∨ s = "-" then 0 else (pyFloat? s).getD 0

/-- Python `max` over a non-empty rational list. -/
def qListMax : List ℚ → Option ℚ
  | [] => none
  | x :: xs =>
    match qListMax xs with
    | none => some x
    | some m => some (max x m)

/-- Python `min` over a non-empty rational list. -/
def qListMin : List ℚ → Option ℚ
  | [] => none
  | x :: xs =>
    match qListMin xs with
    | none => some x
    | some m => some (min x m)

/-- `fetch_bom_actuals`: fails on transport errors, on a feed with fewer than
two samples (`if not data or len(data) < 2`), and when the selected window is
empty; otherwise the max/min temperature over the window and the rainfall of
the newest sample.  (The final `match` arms model the `ValueError` a `max()`
over an empty sequence would raise, and the `IndexError` `data[0]` would
raise — both caught, both unreachable under the guards.) -/
def fetch_bom_actuals (yesterday : String) : ActualsFetch → Option ActualObs
  | .fail => none
  | .payload data =>
    if data.length < 2 then none
    else
      let sel := selectedObs yesterday data
      if sel.isEmpty then none
      else
        let temps := sel.filterMap Obs.air_temp
        match qListMax temps, qListMin temps, data.head? with
        | some mx, some mn, some h0 => some { minT := mn, maxT := mx, rain := rainOf h0 }
        | _, _, _ => none

/- ------------------------------------------------------------------ -/
/- Concrete inputs used by witnesses and counterexamples.              -/
/- ------------------------------------------------------------------ -/

/-- A graded row used to witness the grading formulas. -/
def c3row : LedgerRow :=
  { Date := "2025-01-01", Station := "West Terrace", Source := "BOM",
    Forecast_Min_Temp := some 13, Forecast_Max_Temp := some 24,
    Forecast_Rain_Prob := some 40,
    Forecast_Rain_Min_mm := some 0, Forecast_Rain_Max_mm := some 2,
    Actual_Min_Temp := some 12, Actual_Max_Temp := some 22,
    Actual_Rain_mm := some 1 }

/-- A graded row whose max-temperature error is exactly `1.0`. -/
def c4rowA : LedgerRow := { c3row with Forecast_Max_Temp := some 23 }

/-- A graded row whose max-temperature error is `1.01`. -/
def c4rowB : LedgerRow := { c3row with Forecast_Max_Temp := some (2301/100) }

/-- A row with both actual temperatures but no actual rainfall. -/
def c5row : LedgerRow := { c3row with Actual_Rain_mm := none }

/-- Forecast fields used by the witness environment. -/
def ffW : ForecastFields :=
  { minT := some 13, maxT := some 24, prob := some 40, rainMin := some 0, rainMax := some 1 }

/-- Weatherzone forecast fields used by the witness environment. -/
def ffWz : ForecastFields :=
  { minT := some 12, maxT := some 23, prob := some 30, rainMin := some 0, rainMax := some 2 }

/-- A concrete fetch environment: BOM succeeds for the `adelaide` page,
Weatherzone succeeds, Open-Meteo fails, and the actuals feed succeeds for
the West Terrace station id. -/
def envW : FetchEnv :=
  { bom := fun p => if p = "adelaide" then some ffW else none,
    openMeteo := fun _ _ => none,
    weatherzone := some ffWz,
    actuals := fun bid _ =>
      if bid = "94648" then some { minT := 10, maxT := 20, rain := 0 } else none }

/-- A ledger row dated yesterday for West Terrace. -/
def rowY : LedgerRow := mkRow "2025-01-01" "West Terrace" "BOM" ffW

/-- A ledger row dated today. -/
def rowT : LedgerRow := mkRow "2025-01-02" "West Terrace" "BOM" ffW

/-- A BOM forecast page carrying only a max temperature. -/
def c7page : List (String × Option String) := [("Max", some "Max: 24 °C")]

/-- The record the BOM adapter returns for `c7page`. -/
def c7rec : BomRec := { minT := none, maxT := 24, prob := none, rainMin := 0, rainMax := 0 }

/-- A Weatherzone page carrying only a class-matched max element. -/
def wzPageW : WzPage := { classEls := [("temp-max", "24°")], strNodes := [], pageText := "" }

/-- A single usable observation sample dated 2025-01-01. -/
def c8obs : Obs :=
  { local_date_time_full := some "20250101090000", air_temp := some 20, rain_trace := some "0" }

/-- A three-sample observation feed, newest first: one sample from the run
day and two from the day before. -/
def c8data : List Obs :=
  [ { local_date_time_full := some "20250102090000", air_temp := some 18, rain_trace := some "3" },
    { local_date_time_full := some "20250101233000", air_temp := some 21, rain_trace := some "4" },
    { local_date_time_full := some "20250101090000", air_temp := some 12, rain_trace := some "0" } ]

/-- The observation triple resolved from `c8data`. -/
def c8res : ActualObs := { minT := 12, maxT := 21, rain := 3 }

/-- The JSON payload on which `fetch_open_meteo` raises an uncaught
`TypeError`: a well-formed object whose `temperature_2m_max` is a number
instead of a list, so `daily.get(...)[0]` subscripts an int. -/
def c6payload : JVal := .jobj [("daily", .jobj [("temperature_2m_max", .jnum 5)])]

/- ------------------------------------------------------------------ -/
/- Claim theorems: grading engine.                                     -/
/- ------------------------------------------------------------------ -/

/-- Claim C3 — grading formula correctness: the error columns equal the
specified absolute errors, the min-temperature error is absent (not a
failure) when the forecast min is absent, the rain midpoint treats a missing
range as 0, the rain error compares the midpoint with the actual rainfall,
and rain success holds exactly when the actual rainfall lies in the closed
forecast range; including the concrete instances 24 vs 22 ↦ 2.0 and the
range [0, 2] with actuals 1 and 5. -/
theorem grading_formula_correctness :
    (∀ r : LedgerRow, ∀ f a : ℚ, r.Forecast_Max_Temp = some f →
        r.Actual_Max_Temp = some a → maxTempError r = some |f - a|) ∧
    (∀ r : LedgerRow, ∀ f a : ℚ, r.Forecast_Min_Temp = some f →
        r.Actual_Min_Temp = some a → minTempError r = some |f - a|) ∧
    (∀ r : LedgerRow, r.Forecast_Min_Temp = none → minTempError r = none) ∧
    (∀ r : LedgerRow, ∀ lo hi : ℚ, r.Forecast_Rain_Min_mm = some lo →
        r.Forecast_Rain_Max_mm = some hi → forecastRainMid r = (lo + hi) / 2) ∧
    (∀ r : LedgerRow, r.Forecast_Rain_Min_mm = none → r.Forecast_Rain_Max_mm = none →
        forecastRainMid r = 0) ∧
    (∀ r : LedgerRow, ∀ a : ℚ, r.Actual_Rain_mm = some a →
        rainError r = |forecastRainMid r - a|) ∧
    (∀ r : LedgerRow, ∀ a lo hi : ℚ, r.Actual_Rain_mm = some a →
        r.Forecast_Rain_Min_mm = some lo → r.Forecast_Rain_Max_mm = some hi →
        (rainSuccess r = true ↔ (lo ≤ a ∧ a ≤ hi))) ∧
    (∀ r : LedgerRow, r.Forecast_Max_Temp = some 24 → r.Actual_Max_Temp = some 22 →
        maxTempError r = some 2) ∧
    (∀ r : LedgerRow, r.Forecast_Rain_Min_mm = some 0 → r.Forecast_Rain_Max_mm = some 2 →
        r.Actual_Rain_mm = some 1 → rainSuccess r = true) ∧
    (∀ r : LedgerRow, r.Forecast_Rain_Min_mm = some 0 → r.Forecast_Rain_Max_mm = some 2 →
        r.Actual_Rain_mm = some 5 → rainSuccess r = false) := by
  refine ⟨?_, ?_, ?_, ?_, ?_, ?_, ?_, ?_, ?_, ?_⟩
  · intro r f a hf ha; simp [maxTempError, hf, ha]
  · intro r f a hf ha; simp [minTempError, hf, ha]
  · intro r h; simp [minTempError, h]
  · intro r lo hi h1 h2; simp [forecastRainMid, h1, h2]
  · intro r h1 h2; simp [forecastRainMid, h1, h2]
  · intro r a ha; simp [rainError, ha]
  · intro r a lo hi ha h1 h2; simp [rainSuccess, ha, h1, h2]
  · intro r hf ha; simp [maxTempError, hf, ha]; norm_num
  · intro r h1 h2 ha; simp [rainSuccess, ha, h1, h2]
  · intro r h1 h2 ha; simp [rainSuccess, ha, h1, h2]; norm_num

/-- Witness for C3 at the concrete row `c3row`. -/
theorem grading_formula_correctness_witness :
    c3row.Forecast_Max_Temp = some 24 ∧ c3row.Actual_Max_Temp = some 22 ∧
    maxTempError c3row = some 2 ∧ rainSuccess c3row = true ∧
    minTempError c5row = some 1 ∧ rainError c3row = 0 := by
  refine ⟨rfl, rfl, ?_, ?_, ?_, ?_⟩
  · exact grading_formula_correctness.2.2.2.2.2.2.2.1 c3row rfl rfl
  · exact grading_formula_correctness.2.2.2.2.2.2.2.2.1 c3row rfl rfl rfl
  · have := grading_formula_correctness.2.1 c5row 13 12 rfl rfl
    rw [this]; norm_num
  · have := grading_formula_correctness.2.2.2.2.2.1 c3row 1 rfl
    rw [this]
    have := grading_formula_correctness.2.2.2.1 c3row 0 2 rfl rfl
    rw [this]; norm_num

/-- Claim C4 — perfect-day classification: a graded row is perfect iff its
max-temperature error is at most 1.0 (inclusive boundary; 1.01 fails) and
rain success holds, and the perfect-only filter keeps exactly the rows
satisfying the conjunction. -/
theorem perfect_day_boundary :
    (∀ r : LedgerRow, ∀ e : ℚ, maxTempError r = some e → rainSuccess r = true →
        (isPerfectDay r = true ↔ e ≤ 1)) ∧
    (∀ r : LedgerRow, maxTempError r = some 1 → rainSuccess r = true →
        isPerfectDay r = true) ∧
    (∀ r : LedgerRow, maxTempError r = some (101/100) → isPerfectDay r = false) ∧
    (∀ (L : List LedgerRow) (r : LedgerRow), r ∈ perfectOnlyFilter L ↔
        (r ∈ L ∧ (∃ e : ℚ, maxTempError r = some e ∧ e ≤ 1) ∧ rainSuccess r = true)) := by
  refine ⟨?_, ?_, ?_, ?_⟩
  · intro r e he hs; simp [isPerfectDay, he, hs]
  · intro r he hs; simp [isPerfectDay, he, hs]
  · intro r he
    have h1 : ¬ ((101 : ℚ)/100 ≤ 1) := by norm_num
    simp [isPerfectDay, he, h1]
  · intro L r
    constructor
    · intro h
      rw [perfectOnlyFilter, List.mem_filter] at h
      refine ⟨h.1, ?_⟩
      have hb := h.2
      rw [isPerfectDay, Bool.and_eq_true] at hb
      rcases hm : maxTempError r with _ | e
      · rw [hm] at hb; simp at hb
      · rw [hm] at hb; simp at hb
        exact ⟨⟨e, rfl, hb.1⟩, hb.2⟩
    · rintro ⟨hmem, ⟨e, he, hle⟩, hs⟩
      rw [perfectOnlyFilter, List.mem_filter]
      exact ⟨hmem, by simp [isPerfectDay, he, hle, hs]⟩

/-- Witness for C4: the inclusive boundary at `c4rowA` (error exactly 1.0)
and the strict failure at `c4rowB` (error 1.01). -/
theorem perfect_day_boundary_witness :
    maxTempError c4rowA = some 1 ∧ rainSuccess c4rowA = true ∧
    isPerfectDay c4rowA = true ∧
    maxTempError c4rowB = some (101/100) ∧ isPerfectDay c4rowB = false := by
  have ha : maxTempError c4rowA = some 1 := by
    rw [grading_formula_correctness.1 c4rowA 23 22 rfl rfl]; norm_num
  have hb : maxTempError c4rowB = some (101/100) := by
    rw [grading_formula_correctness.1 c4rowB (2301/100) 22 rfl rfl]; norm_num
  have hs : rainSuccess c4rowA = true := by
    rw [grading_formula_correctness.2.2.2.2.2.2.1 c4rowA 1 0 2 rfl rfl rfl]; norm_num
  exact ⟨ha, hs, perfect_day_boundary.2.1 c4rowA ha hs, hb,
    perfect_day_boundary.2.2.1 c4rowB hb⟩

/-- Counterexample for C5: `c5row` has no actual rainfall, yet the grading
filter keeps it — the claim that a row missing any of the three actual
fields produces no graded record is false on the code, whose `dropna`
subsets name only `Actual_Min_Temp`, `Actual_Max_Temp` and
`Forecast_Max_Temp`. -/
theorem gradable_filter_counterexample :
    c5row.Actual_Rain_mm = none ∧ dfEval [c5row] = [c5row] := by
  exact ⟨rfl, rfl⟩

/-- Claim C5 (amended) — the grading engine grades exactly the rows with a
present forecast max temperature and present actual min and max
temperatures; a present actual rainfall is not required. -/
theorem gradable_filter_amended :
    ∀ (L : List LedgerRow) (r : LedgerRow), r ∈ dfEval L ↔
      (r ∈ L ∧ r.Actual_Min_Temp.isSome = true ∧ r.Actual_Max_Temp.isSome = true ∧
        r.Forecast_Max_Temp.isSome = true) := by
  intro L r
  rw [dfEval, List.mem_filter, gradable]
  simp [Bool.and_eq_true, and_assoc]

/- ------------------------------------------------------------------ -/
/- Helper lemmas about the orchestrator.                               -/
/- ------------------------------------------------------------------ -/

/-- Mapping a pointwise-identity function is the identity. -/
theorem map_id_of_fixes {α : Type} (f : α → α) :
    ∀ (l : List α), (∀ a ∈ l, f a = a) → l.map f = l := by
  intro l
  induction l with
  | nil => intro _; rfl
  | cons x xs ih =>
    intro h
    simp only [List.map_cons]
    rw [h x (by simp), ih (fun a ha => h a (by simp [ha]))]

/-- Setting the actual triple does not change the forecast view. -/
theorem forecastProj_setActuals (a : ActualObs) (r : LedgerRow) :
    forecastProj (setActuals a r) = forecastProj r := rfl

/-- A per-row actuals update does not change the forecast view. -/
theorem forecastProj_rowUpd (y : String) (s : Station) (res : Option ActualObs)
    (r : LedgerRow) : forecastProj (rowUpd y s res r) = forecastProj r := by
  rcases res with _ | a
  · rfl
  · rw [rowUpd]
    split
    · rfl
    · rfl

/-- One station's actuals pass is the per-row update mapped over the ledger
(when no row matches, the mapped update is the identity, matching the
unchanged-ledger branch of the `mask.any()` test). -/
theorem updateStationActuals_eq_map (y : String) (s : Station) (res : Option ActualObs)
    (L : List LedgerRow) : updateStationActuals y s res L = L.map (rowUpd y s res) := by
  rcases res with _ | a
  · rw [updateStationActuals]
    exact (map_id_of_fixes _ L (fun r _ => rfl)).symm
  · rw [updateStationActuals]
    split
    · rfl
    · rename_i hnone
      rw [List.any_eq_true] at hnone
      push_neg at hnone
      refine (map_id_of_fixes _ L (fun r hr => ?_)).symm
      rw [rowUpd]
      split
      · rename_i hcond
        exact absurd (by simpa using hcond) (by simpa using hnone r hr)
      · rfl

/-- The whole actuals loop is the chained per-row update mapped over the
ledger. -/
theorem applyActuals_eq_map (env : FetchEnv) (y : String) :
    ∀ (ss : List Station) (L : List LedgerRow),
      applyActuals env y ss L = L.map (rowChain env y ss) := by
  intro ss
  induction ss with
  | nil =>
    intro L
    rw [applyActuals, List.foldl_nil]
    exact (map_id_of_fixes _ L (fun r _ => rfl)).symm
  | cons s tl ih =>
    intro L
    show applyActuals env y tl (updateStationActuals y s (env.actuals s.bom_id s.prod_id) L)
        = L.map (rowChain env y (s :: tl))
    rw [ih, updateStationActuals_eq_map, List.map_map]
    rfl

/-- The chained per-row update does not change the forecast view. -/
theorem forecastProj_rowChain (env : FetchEnv) (y : String) :
    ∀ (ss : List Station) (r : LedgerRow),
      forecastProj (rowChain env y ss r) = forecastProj r := by
  intro ss
  induction ss with
  | nil => intro r; rfl
  | cons s tl ih =>
    intro r
    show forecastProj (rowChain env y tl (rowUpd y s (env.actuals s.bom_id s.prod_id) r))
        = forecastProj r
    rw [ih, forecastProj_rowUpd]

/-- The chained per-row update preserves the `Date` column. -/
theorem rowChain_Date (env : FetchEnv) (y : String) (ss : List Station) (r : LedgerRow) :
    (rowChain env y ss r).Date = r.Date :=
  congrArg ForecastView.Date (forecastProj_rowChain env y ss r)

/-- The chained per-row update preserves the `Station` column. -/
theorem rowChain_Station (env : FetchEnv) (y : String) (ss : List Station) (r : LedgerRow) :
    (rowChain env y ss r).Station = r.Station :=
  congrArg ForecastView.Station (forecastProj_rowChain env y ss r)

/-- The actuals loop does not change the list of forecast views. -/
theorem applyActuals_forecastProj (env : FetchEnv) (y : String) (ss : List Station)
    (L : List LedgerRow) :
    (applyActuals env y ss L).map forecastProj = L.map forecastProj := by
  rw [applyActuals_eq_map, List.map_map]
  exact List.map_congr_left (fun r _ => forecastProj_rowChain env y ss r)

/-- The actuals loop does not change the whole-day guard. -/
theorem already_ran_today_applyActuals (env : FetchEnv) (y t : String) (ss : List Station)
    (L : List LedgerRow) :
    already_ran_today (applyActuals env y ss L) t = already_ran_today L t := by
  rw [already_ran_today, already_ran_today, applyActuals_eq_map]
  induction L with
  | nil => rfl
  | cons r rs ih => simp [List.any_cons, rowChain_Date, ih]

/-- The guard over an appended ledger. -/
theorem already_ran_today_append (A B : List LedgerRow) (t : String) :
    already_ran_today (A ++ B) t = (already_ran_today A t || already_ran_today B t) :=
  List.any_append

/-- Membership in one station's new records, characterised by the adapter
results. -/
theorem stationRecords_mem (env : FetchEnv) (t : String) (s : Station) (r : LedgerRow) :
    r ∈ stationRecords env t s ↔
      ((∃ f, env.bom s.bom_place = some f ∧ r = mkRow t s.name "BOM" f) ∨
       (∃ f, env.openMeteo s.lat s.lon = some f ∧ r = mkRow t s.name "Open-Meteo" f) ∨
       (∃ f, env.weatherzone = some f ∧ r = mkRow t s.name "Weatherzone" f)) := by
  rw [stationRecords]
  rcases h1 : env.bom s.bom_place with _ | f1 <;>
    rcases h2 : env.openMeteo s.lat s.lon with _ | f2 <;>
      rcases h3 : env.weatherzone with _ | f3 <;>
        simp

/-- Membership in the collected forecast records. -/
theorem collectForecasts_mem (env : FetchEnv) (t : String) :
    ∀ (ss : List Station) (r : LedgerRow),
      r ∈ collectForecasts env t ss ↔ ∃ s ∈ ss, r ∈ stationRecords env t s := by
  intro ss
  induction ss with
  | nil => intro r; simp [collectForecasts]
  | cons s tl ih =>
    intro r
    rw [collectForecasts, List.mem_append, ih]
    constructor
    · rintro (h | ⟨s', hs', hr⟩)
      · exact ⟨s, by simp, h⟩
      · exact ⟨s', by simp [hs'], hr⟩
    · rintro ⟨s', hs', hr⟩
      rcases List.mem_cons.mp hs' with h | h
      · subst h; exact Or.inl hr
      · exact Or.inr ⟨s', h, hr⟩

/-- Every collected forecast record carries today's date and absent
actuals. -/
theorem collectForecasts_fields (env : FetchEnv) (t : String) (ss : List Station)
    (r : LedgerRow) (hr : r ∈ collectForecasts env t ss) :
    r.Date = t ∧ r.Actual_Min_Temp = none ∧ r.Actual_Max_Temp = none ∧
      r.Actual_Rain_mm = none := by
  rcases (collectForecasts_mem env t ss r).mp hr with ⟨s, _, hmem⟩
  rcases (stationRecords_mem env t s r).mp hmem with ⟨f, _, h⟩ | ⟨f, _, h⟩ | ⟨f, _, h⟩ <;>
    (subst h; exact ⟨rfl, rfl, rfl, rfl⟩)


/-- Unfolding one step of the chained per-row update. -/
theorem rowChain_cons (env : FetchEnv) (y : String) (s : Station) (tl : List Station)
    (r : LedgerRow) :
    rowChain env y (s :: tl) r
      = rowChain env y tl (rowUpd y s (env.actuals s.bom_id s.prod_id) r) := rfl

/-- The four configured station names are pairwise distinct. -/
theorem STATIONS_names_nodup : (STATIONS.map Station.name).Nodup := by
  simp [STATIONS, stWT]

/- ------------------------------------------------------------------ -/
/- Claim theorems: orchestrator.                                       -/
/- ------------------------------------------------------------------ -/

/-- Claim C1 — idempotency of forecast collection: when any row with
today's date is already in the ledger the run is exactly the actuals-only
update (no forecast collection), and a second run on the same calendar date
leaves the set of forecast rows of the first run unchanged (no
duplicates). -/
theorem forecast_collection_idempotent (env : FetchEnv) (t y : String)
    (L : List LedgerRow) :
    (already_ran_today L t = true →
        runPipeline env t y L = applyActuals env y STATIONS L) ∧
    (runPipeline env t y (runPipeline env t y L)).map forecastProj
      = (runPipeline env t y L).map forecastProj := by
  have key : ∀ (M : List LedgerRow), already_ran_today M t = true →
      runPipeline env t y M = applyActuals env y STATIONS M := by
    intro M hM
    rw [runPipeline, if_pos hM, List.append_nil]
  have key2 : ∀ (M : List LedgerRow), already_ran_today M t = false →
      collectForecasts env t STATIONS = [] →
      runPipeline env t y M = applyActuals env y STATIONS M := by
    intro M hM hcc
    rw [runPipeline, if_neg (by simp [hM]), hcc, List.append_nil]
  refine ⟨key L, ?_⟩
  rcases hb : already_ran_today L t with _ | _
  · -- guard false on the first run
    rcases hc : collectForecasts env t STATIONS with _ | ⟨c, cs⟩
    · -- every adapter failed: both runs are actuals-only updates
      have h2 : already_ran_today (runPipeline env t y L) t = false := by
        rw [key2 L hb hc, already_ran_today_applyActuals, hb]
      rw [key2 _ h2 hc, applyActuals_forecastProj]
    · -- a record was collected: it carries today's date, so the second
      -- run's guard fires and only actuals resolution proceeds
      have h1 : runPipeline env t y L
          = applyActuals env y STATIONS L ++ collectForecasts env t STATIONS := by
        rw [runPipeline, if_neg (by simp [hb])]
      have hcdate : c.Date = t :=
        (collectForecasts_fields env t STATIONS c (by rw [hc]; simp)).1
      have h2 : already_ran_today (runPipeline env t y L) t = true := by
        rw [h1, already_ran_today_append, already_ran_today_applyActuals, hb, hc,
          already_ran_today, List.any_cons, hcdate]
        simp
      rw [key _ h2, applyActuals_forecastProj]
  · -- guard true on the first run: both runs are actuals-only updates
    have h2 : already_ran_today (runPipeline env t y L) t = true := by
      rw [key L hb, already_ran_today_applyActuals, hb]
    rw [key _ h2, applyActuals_forecastProj]

/-- Witness for C1: a ledger already holding a row dated today makes the
run an actuals-only update. -/
theorem forecast_collection_idempotent_witness :
    already_ran_today [rowT] "2025-01-02" = true ∧
    runPipeline envW "2025-01-02" "2025-01-01" [rowT]
      = applyActuals envW "2025-01-01" STATIONS [rowT] := by
  have h : already_ran_today [rowT] "2025-01-02" = true := by decide
  exact ⟨h, (forecast_collection_idempotent envW "2025-01-02" "2025-01-01" [rowT]).1 h⟩

/-- Chained updates leave a row untouched when no station in the list has
the row's station name. -/
theorem rowChain_skip (env : FetchEnv) (y : String) :
    ∀ (ss : List Station) (r : LedgerRow), (∀ s' ∈ ss, r.Station ≠ s'.name) →
      rowChain env y ss r = r := by
  intro ss
  induction ss with
  | nil => intro r _; rfl
  | cons s tl ih =>
    intro r h
    rw [rowChain_cons]
    have hupd : rowUpd y s (env.actuals s.bom_id s.prod_id) r = r := by
      rcases env.actuals s.bom_id s.prod_id with _ | a
      · rfl
      · show (if r.Date = y ∧ r.Station = s.name then setActuals a r else r) = r
        rw [if_neg]
        rintro ⟨_, hst⟩
        exact h s (by simp) hst
    rw [hupd]
    exact ih r (fun s' hs' => h s' (by simp [hs']))

/-- Chained updates set the actual triple of every matching row when the
station list has pairwise-distinct names and the matched station's actuals
fetch succeeded. -/
theorem rowChain_fanout (env : FetchEnv) (y : String) (s : Station) (a : ActualObs) :
    ∀ (ss : List Station) (r : LedgerRow), s ∈ ss → (ss.map Station.name).Nodup →
      env.actuals s.bom_id s.prod_id = some a → r.Date = y → r.Station = s.name →
      (rowChain env y ss r).Actual_Min_Temp = some a.minT ∧
      (rowChain env y ss r).Actual_Max_Temp = some a.maxT ∧
      (rowChain env y ss r).Actual_Rain_mm = some a.rain := by
  intro ss
  induction ss with
  | nil => intro r h; exact absurd h (by simp)
  | cons s0 tl ih =>
    intro r hmem hnd ha hd hst
    rcases List.mem_cons.mp hmem with heq | htl
    · subst heq
      have hstep : rowUpd y s (env.actuals s.bom_id s.prod_id) r = setActuals a r := by
        rw [ha]
        show (if r.Date = y ∧ r.Station = s.name then setActuals a r else r) = setActuals a r
        exact if_pos ⟨hd, hst⟩
      have hskip : rowChain env y tl (setActuals a r) = setActuals a r := by
        refine rowChain_skip env y tl (setActuals a r) (fun s' hs' => ?_)
        have hnotin : s.name ∉ tl.map Station.name := by
          simpa using (List.nodup_cons.mp hnd).1
        show (setActuals a r).Station ≠ s'.name
        have hstation : (setActuals a r).Station = s.name := hst
        rw [hstation]
        intro hcontra
        exact hnotin (by rw [hcontra]; exact List.mem_map_of_mem Station.name hs')
      rw [rowChain_cons, hstep, hskip]
      exact ⟨rfl, rfl, rfl⟩
    · have hnd' : (tl.map Station.name).Nodup := (List.nodup_cons.mp hnd).2
      have hd' : (rowUpd y s0 (env.actuals s0.bom_id s0.prod_id) r).Date = y := by
        rcases env.actuals s0.bom_id s0.prod_id with _ | a0
        · exact hd
        · show (if r.Date = y ∧ r.Station = s0.name then setActuals a0 r else r).Date = y
          split <;> exact hd
      have hst' : (rowUpd y s0 (env.actuals s0.bom_id s0.prod_id) r).Station = s.name := by
        rcases env.actuals s0.bom_id s0.prod_id with _ | a0
        · exact hst
        · show (if r.Date = y ∧ r.Station = s0.name then setActuals a0 r else r).Station
              = s.name
          split <;> exact hst
      rw [rowChain_cons]
      exact ih (rowUpd y s0 (env.actuals s0.bom_id s0.prod_id) r) htl hnd' ha hd' hst'

/-- Claim C2 — fan-out consistency of the actuals backfill: when the
actuals fetch succeeds for a configured station and some ledger row matches
(yesterday, station), then after the run every row with that date and
station — regardless of source — carries the same complete actual
triple. -/
theorem fanout_consistency (env : FetchEnv) (t y : String) (L : List LedgerRow)
    (s : Station) (a : ActualObs) (hty : t ≠ y) (hs : s ∈ STATIONS)
    (ha : env.actuals s.bom_id s.prod_id = some a)
    (hmatch : ∃ r ∈ L, r.Date = y ∧ r.Station = s.name) :
    ∀ r' ∈ runPipeline env t y L, r'.Date = y → r'.Station = s.name →
      r'.Actual_Min_Temp = some a.minT ∧ r'.Actual_Max_Temp = some a.maxT ∧
      r'.Actual_Rain_mm = some a.rain := by
  intro r' hr' hd' hst'
  rw [runPipeline] at hr'
  rcases List.mem_append.mp hr' with hA | hNew
  · rw [applyActuals_eq_map] at hA
    rcases List.mem_map.mp hA with ⟨r, _, hchain⟩
    subst hchain
    have hd : r.Date = y := by rw [← rowChain_Date env y STATIONS r]; exact hd'
    have hst : r.Station = s.name := by rw [← rowChain_Station env y STATIONS r]; exact hst'
    exact rowChain_fanout env y s a STATIONS r hs STATIONS_names_nodup ha hd hst
  · rcases hguard : already_ran_today L t with _ | _
    · rw [if_neg (by simp [hguard])] at hNew
      have hdate := (collectForecasts_fields env t STATIONS r' hNew).1
      exact absurd (hdate ▸ hd') hty
    · rw [if_pos hguard] at hNew
      simp at hNew

/-- Witness for C2 at a concrete environment and one-row ledger. -/
theorem fanout_consistency_witness :
    ("2025-01-02" : String) ≠ "2025-01-01" ∧ stWT ∈ STATIONS ∧
    envW.actuals stWT.bom_id stWT.prod_id = some { minT := 10, maxT := 20, rain := 0 } ∧
    (∃ r ∈ [rowY], r.Date = "2025-01-01" ∧ r.Station = stWT.name) ∧
    (∀ r' ∈ runPipeline envW "2025-01-02" "2025-01-01" [rowY],
      r'.Date = "2025-01-01" → r'.Station = stWT.name →
      r'.Actual_Min_Temp = some 10 ∧ r'.Actual_Max_Temp = some 20 ∧
      r'.Actual_Rain_mm = some 0) := by
  refine ⟨by decide, List.mem_cons_self _ _, rfl, ⟨rowY, by simp, rfl, rfl⟩, ?_⟩
  exact fanout_consistency envW "2025-01-02" "2025-01-01" [rowY] stWT
    { minT := 10, maxT := 20, rain := 0 } (by decide) (List.mem_cons_self _ _) rfl
    ⟨rowY, by simp, rfl, rfl⟩

/-- An element taken at an index past the first part of an appended list
belongs to the second part. -/
theorem get_append_mem_right {α : Type} (l1 l2 : List α) (i : Nat)
    (h : l1.length ≤ i) (h' : i < (l1 ++ l2).length) : (l1 ++ l2).get ⟨i, h'⟩ ∈ l2 := by
  have hlt : i - l1.length < l2.length := by
    rw [List.length_append] at h'; omega
  have heq := @List.get_append_right α i l1 l2 h h' hlt
  rw [heq]
  exact List.get_mem _ _ _

/-- Claim C9 — ledger frame property: a run keeps every pre-existing row at
its position with its forecast columns unchanged (rows are never deleted,
forecast fields never mutated; only the actual fields may change in place),
and everything beyond the original rows is an appended new forecast row
dated today with absent actuals. -/
theorem ledger_frame (env : FetchEnv) (t y : String) (L : List LedgerRow) :
    L.length ≤ (runPipeline env t y L).length ∧
    (∀ i : Nat, ∀ hi : i < L.length, ∀ hi' : i < (runPipeline env t y L).length,
      forecastProj ((runPipeline env t y L).get ⟨i, hi'⟩) = forecastProj (L.get ⟨i, hi⟩)) ∧
    (∀ i : Nat, L.length ≤ i → ∀ hi' : i < (runPipeline env t y L).length,
      ((runPipeline env t y L).get ⟨i, hi'⟩).Date = t ∧
      ((runPipeline env t y L).get ⟨i, hi'⟩).Actual_Min_Temp = none ∧
      ((runPipeline env t y L).get ⟨i, hi'⟩).Actual_Max_Temp = none ∧
      ((runPipeline env t y L).get ⟨i, hi'⟩).Actual_Rain_mm = none) := by
  have hform : runPipeline env t y L
      = L.map (rowChain env y STATIONS) ++
        (if already_ran_today L t then [] else collectForecasts env t STATIONS) := by
    rw [runPipeline, applyActuals_eq_map]
  refine ⟨?_, ?_, ?_⟩
  · rw [hform]
    simp
  · intro i hi hi'
    have h1 := List.get_of_eq hform ⟨i, hi'⟩
    have hi2 : i < (L.map (rowChain env y STATIONS)).length := by simpa using hi
    rw [h1, List.get_append i hi2, List.get_map]
    exact forecastProj_rowChain env y STATIONS _
  · intro i hi hi'
    have h1 := List.get_of_eq hform ⟨i, hi'⟩
    have hlen : (L.map (rowChain env y STATIONS)).length ≤ i := by simpa using hi
    have hib : i < ((L.map (rowChain env y STATIONS)) ++
        (if already_ran_today L t then [] else collectForecasts env t STATIONS)).length := by
      rw [← hform]; exact hi'
    have h2 : (runPipeline env t y L).get ⟨i, hi'⟩
        ∈ (if already_ran_today L t then []
           else collectForecasts env t STATIONS) := by
      rw [h1]
      exact get_append_mem_right _ _ i hlen hib
    rcases hguard : already_ran_today L t with _ | _
    · rw [if_neg (by simp [hguard])] at h2
      exact collectForecasts_fields env t STATIONS _ h2
    · rw [if_pos hguard] at h2
      simp at h2

/-- Witness for C9 on a one-row ledger: the original row keeps its forecast
view at position 0, and position 1 holds an appended today row with absent
actuals. -/
theorem ledger_frame_witness :
    (0 : Nat) < [rowY].length ∧
    forecastProj ((runPipeline envW "2025-01-02" "2025-01-01" [rowY]).get ⟨0, by decide⟩)
      = forecastProj ([rowY].get ⟨0, by decide⟩) ∧
    [rowY].length ≤ 1 ∧
    ((runPipeline envW "2025-01-02" "2025-01-01" [rowY]).get ⟨1, by decide⟩).Date
      = "2025-01-02" ∧
    ((runPipeline envW "2025-01-02" "2025-01-01" [rowY]).get ⟨1, by decide⟩).Actual_Min_Temp
      = none := by
  have h := ledger_frame envW "2025-01-02" "2025-01-01" [rowY]
  refine ⟨by decide, h.2.1 0 (by decide) (by decide), by decide, ?_, ?_⟩
  · exact (h.2.2 1 (by decide) (by decide)).1
  · exact (h.2.2 1 (by decide) (by decide)).2.1

/-- A collected record with source `Weatherzone` comes from the single
station-independent Weatherzone fetch result. -/
theorem collect_weatherzone_row (env : FetchEnv) (t : String) (ss : List Station)
    (r : LedgerRow) (hr : r ∈ collectForecasts env t ss)
    (hsrc : r.Source = "Weatherzone") :
    ∃ f, env.weatherzone = some f ∧ r = mkRow t r.Station "Weatherzone" f := by
  rcases (collectForecasts_mem env t ss r).mp hr with ⟨s, _, hmem⟩
  rcases (stationRecords_mem env t s r).mp hmem with ⟨f, hf, h⟩ | ⟨f, hf, h⟩ | ⟨f, hf, h⟩
  · subst h
    have hbad : ("BOM" : String) = "Weatherzone" := hsrc
    exact absurd hbad (by decide)
  · subst h
    have hbad : ("Open-Meteo" : String) = "Weatherzone" := hsrc
    exact absurd hbad (by decide)
  · subst h; exact ⟨f, hf, rfl⟩

/-- Claim C10 — Weatherzone output is station-independent: the adapter takes
no station argument (see `scrape_weatherzone` and the `weatherzone` field of
`FetchEnv`), so any two Weatherzone rows collected in one run agree on the
date and on all five forecast fields — only the station differs. -/
theorem weatherzone_station_independent (env : FetchEnv) (t : String)
    (ss : List Station) (r₁ r₂ : LedgerRow)
    (h₁ : r₁ ∈ collectForecasts env t ss) (h₂ : r₂ ∈ collectForecasts env t ss)
    (hs₁ : r₁.Source = "Weatherzone") (hs₂ : r₂.Source = "Weatherzone") :
    r₁.Date = r₂.Date ∧
    r₁.Forecast_Min_Temp = r₂.Forecast_Min_Temp ∧
    r₁.Forecast_Max_Temp = r₂.Forecast_Max_Temp ∧
    r₁.Forecast_Rain_Prob = r₂.Forecast_Rain_Prob ∧
    r₁.Forecast_Rain_Min_mm = r₂.Forecast_Rain_Min_mm ∧
    r₁.Forecast_Rain_Max_mm = r₂.Forecast_Rain_Max_mm := by
  obtain ⟨f₁, hf₁, he₁⟩ := collect_weatherzone_row env t ss r₁ h₁ hs₁
  obtain ⟨f₂, hf₂, he₂⟩ := collect_weatherzone_row env t ss r₂ h₂ hs₂
  have hff : f₁ = f₂ := Option.some.inj (hf₁.symm.trans hf₂)
  subst hff
  rw [he₁, he₂]
  exact ⟨rfl, rfl, rfl, rfl, rfl, rfl⟩

/-- Witness for C10: two Weatherzone rows of different stations collected in
one concrete run carry identical forecast fields. -/
theorem weatherzone_station_independent_witness :
    mkRow "2025-01-02" "West Terrace" "Weatherzone" ffWz
      ∈ collectForecasts envW "2025-01-02" STATIONS ∧
    mkRow "2025-01-02" "Adelaide Airport" "Weatherzone" ffWz
      ∈ collectForecasts envW "2025-01-02" STATIONS ∧
    (mkRow "2025-01-02" "West Terrace" "Weatherzone" ffWz).Forecast_Max_Temp
      = (mkRow "2025-01-02" "Adelaide Airport" "Weatherzone" ffWz).Forecast_Max_Temp := by
  have hm1 : mkRow "2025-01-02" "West Terrace" "Weatherzone" ffWz
      ∈ collectForecasts envW "2025-01-02" STATIONS := by decide
  have hm2 : mkRow "2025-01-02" "Adelaide Airport" "Weatherzone" ffWz
      ∈ collectForecasts envW "2025-01-02" STATIONS := by decide
  exact ⟨hm1, hm2,
    (weatherzone_station_independent envW "2025-01-02" STATIONS _ _ hm1 hm2 rfl rfl).2.2.1⟩

/- ------------------------------------------------------------------ -/
/- Claim theorems: adapters.                                           -/
/- ------------------------------------------------------------------ -/

/-- Claim C6 — evaluation at the failing input: on the well-formed JSON
payload `c6payload` (whose `temperature_2m_max` is a number rather than a
list), `fetch_open_meteo` raises a `TypeError` that its handlers
(`RequestException` and `(KeyError, IndexError, ValueError)`) do not catch,
so the exception propagates to the orchestrator instead of becoming a
`None` result. -/
theorem open_meteo_uncaught_typeerror :
    fetch_open_meteo (.body (some c6payload)) = .error .typeError ∧
    caughtOM .typeError = false := ⟨rfl, rfl⟩

/-- Counterexample for C7: on a BOM page whose rainfall label is absent, the
adapter returns a record whose rainfall range is the substituted default
`0.0`–`0.0` — a present value in the resulting ledger row, not an absent
field. -/
theorem bom_rain_default_counterexample :
    fetch_bom_forecast (.page c7page) = some c7rec ∧
    (mkRow "2025-01-02" "West Terrace" "BOM" (bomFields c7rec)).Forecast_Rain_Min_mm
      = some 0 ∧
    (mkRow "2025-01-02" "West Terrace" "BOM" (bomFields c7rec)).Forecast_Rain_Max_mm
      = some 0 := by
  refine ⟨?_, rfl, rfl⟩
  rfl

/-- A generic preservation principle for the `fetch_bom_forecast` scan: any
view of the parse state that every step of the page leaves unchanged is
unchanged by the whole scan (including its early break). -/
theorem bomScan_field {γ : Type} (g : BomSt → γ) (pairs : List (String × Option String))
    (hstep : ∀ st : BomSt, ∀ pr ∈ pairs, ∀ v, pr.2 = some v → g (bomStep st pr.1 v) = g st) :
    ∀ st, g (bomScan st pairs) = g st := by
  induction pairs with
  | nil => intro st; rfl
  | cons pr rest ih =>
    rcases pr with ⟨label, dd⟩
    rcases dd with _ | v
    · intro st
      exact ih (fun st' q hq v hv => hstep st' q (by simp [hq]) v hv) st
    · intro st
      have hred : bomScan st ((label, some v) :: rest)
          = (if (bomStep st label v).minT.isSome ∧ (bomStep st label v).maxT.isSome
                ∧ (bomStep st label v).prob.isSome
             then bomStep st label v else bomScan (bomStep st label v) rest) := rfl
      have hs : g (bomStep st label v) = g st := hstep st (label, some v) (by simp) v rfl
      rw [hred]
      split
      · exact hs
      · rw [ih (fun st' q hq v' hv' => hstep st' q (by simp [hq]) v' hv') (bomStep st label v)]
        exact hs

/-- A step whose label does not contain `possible rainfall` leaves the rain
range unchanged. -/
theorem bomStep_rain_of (st : BomSt) (l v : String)
    (h : strContainsSub (lowerStr l) "possible rainfall" = false) :
    ((bomStep st l v).rainMin, (bomStep st l v).rainMax) = (st.rainMin, st.rainMax) := by
  simp only [bomStep]
  split_ifs with h1 h2 h3 h4
  · rcases hf : findInt? v with _ | n <;> simp [hf]
  · rcases hf : findInt? v with _ | n <;> simp [hf]
  · exact absurd h3.1 (by simp [h])
  · rcases hf : findNat? v with _ | n <;> simp [hf]
  · rfl

/-- A step whose label is not `min` leaves the min temperature unchanged. -/
theorem bomStep_min_of (st : BomSt) (l v : String) (h : lowerStr l ≠ "min") :
    (bomStep st l v).minT = st.minT := by
  simp only [bomStep]
  split_ifs with h1 h2 h3 h4
  · exact absurd h1.1 h
  · rcases hf : findInt? v with _ | n <;> simp [hf]
  · rcases hf : findDecimals v with _ | ⟨a, _ | ⟨b, tl⟩⟩ <;> simp [hf]
  · rcases hf : findNat? v with _ | n <;> simp [hf]
  · rfl

/-- A step whose label does not contain `chance of any rain` leaves the rain
probability unchanged. -/
theorem bomStep_prob_of (st : BomSt) (l v : String)
    (h : strContainsSub (lowerStr l) "chance of any rain" = false) :
    (bomStep st l v).prob = st.prob := by
  simp only [bomStep]
  split_ifs with h1 h2 h3 h4
  · rcases hf : findInt? v with _ | n <;> simp [hf]
  · rcases hf : findInt? v with _ | n <;> simp [hf]
  · rcases hf : findDecimals v with _ | ⟨a, _ | ⟨b, tl⟩⟩ <;> simp [hf]
  · exact absurd h4.1 (by simp [h])
  · rfl

/-- Claim C7 (amended) — partial-field policy of the two HTML scrapers: the
min temperature and the rain probability are left absent when their markup
cannot be located, but the possible-rainfall range is substituted by the
default `0.0`–`0.0` (a present value) rather than left absent; only a
missing max temperature causes a parse failure. -/
theorem scraper_partial_fields (pairs : List (String × Option String)) (p : WzPage) :
    ((∀ pr ∈ pairs, strContainsSub (lowerStr pr.1) "possible rainfall" = false) →
      ∀ rec, fetch_bom_forecast (.page pairs) = some rec →
        rec.rainMin = 0 ∧ rec.rainMax = 0 ∧ (bomFields rec).rainMin = some 0 ∧
          (bomFields rec).rainMax = some 0) ∧
    ((∀ pr ∈ pairs, lowerStr pr.1 ≠ "min") →
      ∀ rec, fetch_bom_forecast (.page pairs) = some rec →
        rec.minT = none ∧ (bomFields rec).minT = none) ∧
    ((∀ pr ∈ pairs, strContainsSub (lowerStr pr.1) "chance of any rain" = false) →
      ∀ rec, fetch_bom_forecast (.page pairs) = some rec →
        rec.prob = none ∧ (bomFields rec).prob = none) ∧
    (fetch_bom_forecast (.page pairs) = none ↔ (bomScan bomInit pairs).maxT = none) ∧
    ((∀ s ∈ p.strNodes, probVal? s = none) →
      ∀ rec, scrape_weatherzone (.page p) = some rec →
        rec.prob = none ∧ (wzFields rec).prob = none) ∧
    ((∀ s ∈ p.strNodes, mmRangeHit s = false) → (∀ s ∈ p.strNodes, mmSingle? s = none) →
      ∀ rec, scrape_weatherzone (.page p) = some rec →
        rec.rainMin = 0 ∧ rec.rainMax = 0 ∧ (wzFields rec).rainMin = some 0 ∧
          (wzFields rec).rainMax = some 0) ∧
    (scrape_weatherzone (.page p) = none ↔ (wzTemps p).2 = none) := by
  refine ⟨?_, ?_, ?_, ?_, ?_, ?_, ?_⟩
  · intro h rec hrec
    have hscan := bomScan_field (fun st => (st.rainMin, st.rainMax)) pairs
      (fun st pr hpr v _ => bomStep_rain_of st pr.1 v (h pr hpr)) bomInit
    rcases hmax : (bomScan bomInit pairs).maxT with _ | mx
    · simp [fetch_bom_forecast, hmax] at hrec
    · simp [fetch_bom_forecast, hmax] at hrec
      have h1 : rec.rainMin = (bomScan bomInit pairs).rainMin := by rw [← hrec]
      have h2 : rec.rainMax = (bomScan bomInit pairs).rainMax := by rw [← hrec]
      have hmin : (bomScan bomInit pairs).rainMin = 0 := congrArg Prod.fst hscan
      have hmax2 : (bomScan bomInit pairs).rainMax = 0 := congrArg Prod.snd hscan
      refine ⟨h1.trans hmin, h2.trans hmax2, ?_, ?_⟩
      · show some rec.rainMin = some 0
        rw [h1.trans hmin]
      · show some rec.rainMax = some 0
        rw [h2.trans hmax2]
  · intro h rec hrec
    have hscan := bomScan_field BomSt.minT pairs
      (fun st pr hpr v _ => bomStep_min_of st pr.1 v (h pr hpr)) bomInit
    rcases hmax : (bomScan bomInit pairs).maxT with _ | mx
    · simp [fetch_bom_forecast, hmax] at hrec
    · simp [fetch_bom_forecast, hmax] at hrec
      have h1 : rec.minT = (bomScan bomInit pairs).minT := by rw [← hrec]
      refine ⟨h1.trans hscan, ?_⟩
      show rec.minT = none
      exact h1.trans hscan
  · intro h rec hrec
    have hscan := bomScan_field BomSt.prob pairs
      (fun st pr hpr v _ => bomStep_prob_of st pr.1 v (h pr hpr)) bomInit
    rcases hmax : (bomScan bomInit pairs).maxT with _ | mx
    · simp [fetch_bom_forecast, hmax] at hrec
    · simp [fetch_bom_forecast, hmax] at hrec
      have h1 : rec.prob = (bomScan bomInit pairs).prob := by rw [← hrec]
      refine ⟨h1.trans hscan, ?_⟩
      show rec.prob = none
      exact h1.trans hscan
  · rcases hmax : (bomScan bomInit pairs).maxT with _ | mx <;>
      simp [fetch_bom_forecast, hmax]
  · intro h rec hrec
    have hfind : p.strNodes.find? (fun s => (probVal? s).isSome) = none :=
      List.find?_eq_none.mpr (fun x hx => by simp [h x hx])
    have hprob : wzProb p = none := by rw [wzProb, hfind]
    rcases hmx : (wzTemps p).2 with _ | mx
    · simp [scrape_weatherzone, hmx] at hrec
    · simp [scrape_weatherzone, hmx] at hrec
      have h1 : rec.prob = wzProb p := by rw [← hrec]
      refine ⟨h1.trans hprob, ?_⟩
      show rec.prob = none
      exact h1.trans hprob
  · intro h1 h2 rec hrec
    have hf1 : p.strNodes.find? mmRangeHit = none :=
      List.find?_eq_none.mpr (fun x hx => by simp [h1 x hx])
    have hf2 : p.strNodes.find? (fun s => (mmSingle? s).isSome) = none :=
      List.find?_eq_none.mpr (fun x hx => by simp [h2 x hx])
    have hrain : wzRain p = (0, 0) := by rw [wzRain, hf1, hf2]
    rcases hmx : (wzTemps p).2 with _ | mx
    · simp [scrape_weatherzone, hmx] at hrec
    · simp [scrape_weatherzone, hmx] at hrec
      have ha : rec.rainMin = (wzRain p).1 := by rw [← hrec]
      have hb : rec.rainMax = (wzRain p).2 := by rw [← hrec]
      have ha' : rec.rainMin = 0 := by rw [ha, hrain]
      have hb' : rec.rainMax = 0 := by rw [hb, hrain]
      refine ⟨ha', hb', ?_, ?_⟩
      · show some rec.rainMin = some 0
        rw [ha']
      · show some rec.rainMax = some 0
        rw [hb']
  · rcases hmx : (wzTemps p).2 with _ | mx <;> simp [scrape_weatherzone, hmx]

/-- Witness for C7 on the concrete page `c7page` (no rainfall, min or
probability markup) and the Weatherzone page `wzPageW` (no text nodes). -/
theorem scraper_partial_fields_witness :
    (∀ pr ∈ c7page, strContainsSub (lowerStr pr.1) "possible rainfall" = false) ∧
    (∀ rec, fetch_bom_forecast (.page c7page) = some rec →
      rec.rainMin = 0 ∧ rec.rainMax = 0 ∧ (bomFields rec).rainMin = some 0 ∧
        (bomFields rec).rainMax = some 0) ∧
    (∀ s ∈ wzPageW.strNodes, probVal? s = none) ∧
    (∀ rec, scrape_weatherzone (.page wzPageW) = some rec →
      rec.prob = none ∧ (wzFields rec).prob = none) := by
  refine ⟨by decide, (scraper_partial_fields c7page wzPageW).1 (by decide), by decide,
    (scraper_partial_fields c7page wzPageW).2.2.2.2.1 (by decide)⟩

/- ------------------------------------------------------------------ -/
/- Claim theorems: actuals resolver.                                   -/
/- ------------------------------------------------------------------ -/

/-- `qListMax` is `none` exactly on the empty list. -/
theorem qListMax_eq_none : ∀ (l : List ℚ), qListMax l = none ↔ l = [] := by
  intro l
  cases l with
  | nil => simp [qListMax]
  | cons x xs =>
    rw [qListMax]
    rcases qListMax xs with _ | m <;> simp

/-- The value of `qListMax` is an element of the list. -/
theorem qListMax_mem : ∀ (l : List ℚ) (m : ℚ), qListMax l = some m → m ∈ l := by
  intro l
  induction l with
  | nil => intro m h; exact absurd h (by simp [qListMax])
  | cons x xs ih =>
    intro m h
    rw [qListMax] at h
    rcases hx : qListMax xs with _ | m'
    · rw [hx] at h
      simp at h
      simp [h]
    · rw [hx] at h
      simp at h
      rcases max_choice x m' with hc | hc
    
      · rw [← h, hc]; simp
      · rw [← h, hc]
        exact List.mem_cons_of_mem x (ih m' hx)

/-- The value of `qListMax` bounds every element of the list. -/
theorem qListMax_ge : ∀ (l : List ℚ) (m : ℚ), qListMax l = some m →
    ∀ q ∈ l, q ≤ m := by
  intro l
  induction l with
  | nil => intro m _ q hq; exact absurd hq (by simp)
  | cons x xs ih =>
    intro m h q hq
    rw [qListMax] at h
    rcases hx : qListMax xs with _ | m'
    · rw [hx] at h
      simp at h
      have hnil : xs = [] := (qListMax_eq_none xs).mp hx
      subst hnil
      simp at hq
      rw [hq, h]
    · rw [hx] at h
      simp at h
      rcases List.mem_cons.mp hq with hqx | hqxs
      · rw [hqx, ← h]; exact le_max_left x m'
      · calc q ≤ m' := ih m' hx q hqxs
          _ ≤ max x m' := le_max_right x m'
          _ = m := h

/-- `qListMin` is `none` exactly on the empty list. -/
theorem qListMin_eq_none : ∀ (l : List ℚ), qListMin l = none ↔ l = [] := by
  intro l
  cases l with
  | nil => simp [qListMin]
  | cons x xs =>
    rw [qListMin]
    rcases qListMin xs with _ | m <;> simp

/-- The value of `qListMin` is an element of the list. -/
theorem qListMin_mem : ∀ (l : List ℚ) (m : ℚ), qListMin l = some m → m ∈ l := by
  intro l
  induction l with
  | nil => intro m h; exact absurd h (by simp [qListMin])
  | cons x xs ih =>
    intro m h
    rw [qListMin] at h
    rcases hx : qListMin xs with _ | m'
    · rw [hx] at h
      simp at h
      simp [h]
    · rw [hx] at h
      simp at h
      rcases min_choice x m' with hc | hc
      · rw [← h, hc]; simp
      · rw [← h, hc]
        exact List.mem_cons_of_mem x (ih m' hx)

/-- The value of `qListMin` is below every element of the list. -/
theorem qListMin_le : ∀ (l : List ℚ) (m : ℚ), qListMin l = some m →
    ∀ q ∈ l, m ≤ q := by
  intro l
  induction l with
  | nil => intro m _ q hq; exact absurd hq (by simp)
  | cons x xs ih =>
    intro m h q hq
    rw [qListMin] at h
    rcases hx : qListMin xs with _ | m'
    · rw [hx] at h
      simp at h
      have hnil : xs = [] := (qListMin_eq_none xs).mp hx
      subst hnil
      simp at hq
      rw [hq, ← h]
    · rw [hx] at h
      simp at h
      rcases List.mem_cons.mp hq with hqx | hqxs
      · rw [hqx, ← h]; exact min_le_left x m'
      · calc m = min x m' := h.symm
          _ ≤ m' := min_le_right x m'
          _ ≤ q := ih m' hx q hqxs

/-- A sample passing the yesterday filter has a present temperature. -/
theorem obsYesterday_isSome (y : String) (o : Obs) (h : obsYesterday y o = true) :
    o.air_temp.isSome = true := by
  rcases hl : o.local_date_time_full with _ | s
  · rw [obsYesterday, hl] at h
    exact absurd h (by simp)
  · rw [obsYesterday, hl] at h
    simp at h
    exact h.2

/-- Every sample of the selected window has a present temperature. -/
theorem selectedObs_isSome (y : String) (data : List Obs) :
    ∀ o ∈ selectedObs y data, o.air_temp.isSome = true := by
  intro o ho
  simp only [selectedObs] at ho
  split at ho
  · exact (List.mem_filter.mp ho).2
  · exact obsYesterday_isSome y o (List.mem_filter.mp ho).2

/-- A non-empty selected window yields a non-empty temperature list. -/
theorem selected_temps_ne_nil (y : String) (data : List Obs)
    (h : selectedObs y data ≠ []) :
    (selectedObs y data).filterMap Obs.air_temp ≠ [] := by
  intro hc
  rw [List.filterMap_eq_nil] at hc
  obtain ⟨o, ho⟩ := List.exists_mem_of_ne_nil _ h
  have hs := selectedObs_isSome y data o ho
  rw [hc o ho] at hs
  simp at hs

/-- Characterisation of a successful `fetch_bom_actuals` run. -/
theorem fetch_bom_actuals_success (y : String) (data : List Obs)
    (h2 : ¬ data.length < 2) (hsel : selectedObs y data ≠ []) :
    ∃ mx mn h0 rest, data = h0 :: rest ∧
      qListMax ((selectedObs y data).filterMap Obs.air_temp) = some mx ∧
      qListMin ((selectedObs y data).filterMap Obs.air_temp) = some mn ∧
      fetch_bom_actuals y (.payload data)
        = some { minT := mn, maxT := mx, rain := rainOf h0 } := by
  have htne := selected_temps_ne_nil y data hsel
  rcases hmx : qListMax ((selectedObs y data).filterMap Obs.air_temp) with _ | mx
  · exact absurd ((qListMax_eq_none _).mp hmx) htne
  rcases hmn : qListMin ((selectedObs y data).filterMap Obs.air_temp) with _ | mn
  · exact absurd ((qListMin_eq_none _).mp hmn) htne
  rcases data with _ | ⟨h0, rest⟩
  · exact absurd (by simp) h2
  refine ⟨mx, mn, h0, rest, rfl, rfl, rfl, ?_⟩
  simp only [fetch_bom_actuals]
  rw [if_neg h2, if_neg (by simp [hsel]), hmx, hmn]
  rfl

/-- Counterexample for C8: a reachable feed holding exactly one usable
yesterday sample makes `fetch_bom_actuals` fail (the `len(data) < 2`
guard), although the number of usable samples is one, not zero. -/
theorem actuals_insufficient_counterexample :
    fetch_bom_actuals "2025-01-01" (.payload [c8obs]) = none ∧
    yesterdayObs "2025-01-01" [c8obs] = [c8obs] ∧
    c8obs.air_temp = some 20 := by
  refine ⟨rfl, by decide, rfl⟩

/-- Claim C8 (amended) — the actuals resolver: it selects yesterday's
samples with a present temperature, falls back to the first ~48 entries with
a present temperature only when that filter is empty, returns the max/min
temperature over the selected window and the rainfall of the newest sample,
and fails exactly when the feed is unreachable, when the feed holds fewer
than two samples, or when zero usable samples remain after the fallback —
its temperatures are always observed sample values, never imputed. -/
theorem actuals_resolver (y : String) (data : List Obs) :
    (fetch_bom_actuals y .fail = none) ∧
    (fetch_bom_actuals y (.payload data) = none ↔
      (data.length < 2 ∨ selectedObs y data = [])) ∧
    (yesterdayObs y data ≠ [] → selectedObs y data = yesterdayObs y data) ∧
    (yesterdayObs y data = [] →
      selectedObs y data = (data.take 48).filter (fun o => o.air_temp.isSome)) ∧
    (∀ res, fetch_bom_actuals y (.payload data) = some res →
      (res.maxT ∈ (selectedObs y data).filterMap Obs.air_temp ∧
        ∀ q ∈ (selectedObs y data).filterMap Obs.air_temp, q ≤ res.maxT) ∧
      (res.minT ∈ (selectedObs y data).filterMap Obs.air_temp ∧
        ∀ q ∈ (selectedObs y data).filterMap Obs.air_temp, res.minT ≤ q) ∧
      (∃ h0 rest, data = h0 :: rest ∧ res.rain = rainOf h0)) := by
  refine ⟨rfl, ?_, ?_, ?_, ?_⟩
  · constructor
    · intro h
      by_cases hlen : data.length < 2
      · exact Or.inl hlen
      by_cases hsel : selectedObs y data = []
      · exact Or.inr hsel
      obtain ⟨mx, mn, h0, rest, _, _, _, hfetch⟩ :=
        fetch_bom_actuals_success y data hlen hsel
      rw [hfetch] at h
      exact absurd h (by simp)
    · intro h
      rcases h with hlen | hsel
      · simp only [fetch_bom_actuals]
        rw [if_pos hlen]
      · by_cases hlen : data.length < 2
        · simp only [fetch_bom_actuals]
          rw [if_pos hlen]
        · simp only [fetch_bom_actuals]
          rw [if_neg hlen, if_pos (by simp [hsel])]
  · intro h
    simp only [selectedObs]
    rw [if_neg (by simp [h])]
  · intro h
    simp only [selectedObs]
    rw [if_pos (by simp [h])]
  · intro res hres
    by_cases hlen : data.length < 2
    · simp only [fetch_bom_actuals] at hres
      rw [if_pos hlen] at hres
      exact absurd hres (by simp)
    by_cases hsel : selectedObs y data = []
    · simp only [fetch_bom_actuals] at hres
      rw [if_neg hlen, if_pos (by simp [hsel])] at hres
      exact absurd hres (by simp)
    obtain ⟨mx, mn, h0, rest, hdata, hmx, hmn, hfetch⟩ :=
      fetch_bom_actuals_success y data hlen hsel
    rw [hfetch] at hres
    have hres' : res = { minT := mn, maxT := mx, rain := rainOf h0 } :=
      (Option.some.inj hres).symm
    subst hres'
    refine ⟨⟨qListMax_mem _ mx hmx, qListMax_ge _ mx hmx⟩,
      ⟨qListMin_mem _ mn hmn, qListMin_le _ mn hmn⟩, h0, rest, hdata, rfl⟩

/-- Witness for C8 on the concrete three-sample feed `c8data`. -/
theorem actuals_resolver_witness :
    yesterdayObs "2025-01-01" c8data ≠ [] ∧
    selectedObs "2025-01-01" c8data = yesterdayObs "2025-01-01" c8data ∧
    fetch_bom_actuals "2025-01-01" (.payload c8data) = some c8res ∧
    (c8res.maxT ∈ (selectedObs "2025-01-01" c8data).filterMap Obs.air_temp ∧
      ∀ q ∈ (selectedObs "2025-01-01" c8data).filterMap Obs.air_temp, q ≤ c8res.maxT) := by
  have h := actuals_resolver "2025-01-01" c8data
  have hys : yesterdayObs "2025-01-01" c8data ≠ [] := by decide
  have hfetch : fetch_bom_actuals "2025-01-01" (.payload c8data) = some c8res := by decide
  exact ⟨hys, h.2.2.1 hys, hfetch, (h.2.2.2.2 c8res hfetch).1⟩
